import Mathlib

/-!
Verification of the `cf_info.py` DNS inspection tool against its specification.

The development shallowly embeds the program's pure logic:
* string helpers mirroring Python `in`, `str.lower`, `str.endswith`, `str.replace`;
* `simplify_name`, `type_color`, `proxy_color`, `format_time` (the presenter helpers);
* the record-row construction of `display_dns_table`, with Python's
  `KeyError` / `ValueError` behaviour made explicit via an error type;
* the filter policy of `main` (env-derived lists plus CLI substring filters);
* the orchestration loop of `main`, modelled as a trace of fetch/render events
  over an abstract API response environment.
-/

namespace CfInfo

/-! ## String primitives (Python semantics, over `List Char`) -/

/-- Mirrors Python `s.startswith(sub)` on character lists: the second list
starts with the first. -/
def leadsWith : List Char → List Char → Bool
  | [], _ => true
  | _ :: _, [] => false
  | a :: as, b :: bs => a == b && leadsWith as bs

/-- Mirrors Python `sub in s`: the first list occurs contiguously in the second. -/
def containsSub : List Char → List Char → Bool
  | sub, [] => leadsWith sub []
  | sub, c :: cs => leadsWith sub (c :: cs) || containsSub sub cs

/-- Python `sub in s` for strings. -/
def strIn (sub s : String) : Bool := containsSub sub.data s.data

/-- Python `s.lower()` (ASCII case folding, which is all the program relies on). -/
def pyLower (s : String) : String := ⟨s.data.map Char.toLower⟩

/-- Python `s.endswith(suf)` on character lists. -/
def endsWithL (s suf : List Char) : Bool :=
  decide (suf.length ≤ s.length) && leadsWith suf (List.drop (s.length - suf.length) s)

/-- Python `s.endswith(suf)` for strings. -/
def strEndsWith (s suf : String) : Bool := endsWithL s.data suf.data

/-- Fuel-driven core of Python `s.replace(old, "")`: removes every
non-overlapping occurrence of `old`, scanning left to right.  The fuel is the
length of the scanned list, which suffices because each step consumes at least
one character (the caller guarantees `old ≠ []`). -/
def pyReplaceFuel (old : List Char) : Nat → List Char → List Char
  | _, [] => []
  | 0, s => s
  | fuel + 1, c :: cs =>
    if leadsWith old (c :: cs) then pyReplaceFuel old fuel (List.drop old.length (c :: cs))
    else c :: pyReplaceFuel old fuel cs

/-- Python `s.replace(old, "")` for a non-empty `old` (the program only calls
it with `old = "." + zone_name`, which is never empty). -/
def pyReplace (s old : String) : String :=
  if old.data = [] then s else ⟨pyReplaceFuel old.data s.data.length s.data⟩

/-! ## Presenter helpers (from `cf_info.py` lines 59–82) -/

/-- The fixed record-type palette of `type_color` (a Python dict). -/
def colors : List (String × String) :=
  [("A", "cyan"), ("CNAME", "green"), ("MX", "yellow"), ("TXT", "magenta"),
   ("AAAA", "blue"), ("NS", "bright_black"), ("SRV", "bright_magenta")]

/-- `type_color(record_type)`: dict lookup with default `"white"`. -/
def type_color (record_type : String) : String :=
  (colors.lookup record_type).getD "white"

/-- `type_color(record.get('type'))` where the key may be absent: Python passes
`None`, which is not a key of the palette, so the default applies. -/
def type_color_opt : Option String → String
  | some t => type_color t
  | none => "white"

/-- `proxy_color(proxied)`. -/
def proxy_color (proxied : Bool) : String :=
  if proxied then "bright_green" else "bright_red"

/-- `simplify_name(name, zone_name)`: identity when equal to the zone name;
when the name ends with `"." + zone_name`, Python `str.replace` removes every
occurrence of that substring; otherwise identity. -/
def simplify_name (name zone_name : String) : String :=
  if name == zone_name then name
  else if strEndsWith name ("." ++ zone_name) then pyReplace name ("." ++ zone_name)
  else name

/-! ## `format_time` (line 81–82): `datetime.strptime(s, "%Y-%m-%dT%H:%M:%S.%fZ")`

CPython's `_strptime` compiles each directive to a regular expression:
`%Y ↦ \d\d\d\d`, `%m ↦ (1[0-2]|0[1-9]|[1-9])`, `%d ↦ (3[01]|[12]\d|0[1-9]|[1-9])`,
`%H ↦ (2[0-3]|[0-1]\d|\d)`, `%M ↦ ([0-5]\d|\d)`, `%S ↦ (6[0-1]|[0-5]\d|\d)`,
`%f ↦ [0-9]{1,6}`, and requires the whole input to be consumed.  Each
alternation below is implemented directly; since every field is followed by a
non-digit literal, the regex engine's backtracking never changes the outcome,
so the direct longest-branch-first implementation is exact.  The subsequent
`datetime(...)` constructor additionally validates year ≥ 1, day against the
month length, and second ≤ 59 (the regex itself admits 60 and 61), raising
`ValueError` otherwise; a raised error is modelled as `none`. -/

/-- Numeric value of a digit character. -/
def charVal (c : Char) : Nat := c.toNat - 48

/-- `%Y`: exactly four digits. -/
def parseY : List Char → Option (Nat × List Char)
  | c1 :: c2 :: c3 :: c4 :: rest =>
    if c1.isDigit && c2.isDigit && c3.isDigit && c4.isDigit then
      some (((charVal c1 * 10 + charVal c2) * 10 + charVal c3) * 10 + charVal c4, rest)
    else none
  | _ => none

/-- A literal character of the format string. -/
def parseLit (c : Char) : List Char → Option (List Char)
  | c0 :: rest => if c0 == c then some rest else none
  | [] => none

/-- `%m`: `1[0-2] | 0[1-9] | [1-9]`. -/
def parseMonth : List Char → Option (Nat × List Char)
  | [] => none
  | c :: rest =>
    if c == '1' then
      match rest with
      | c2 :: rest2 =>
        if '0' ≤ c2 && c2 ≤ '2' then some (10 + charVal c2, rest2) else some (1, rest)
      | [] => some (1, rest)
    else if c == '0' then
      match rest with
      | c2 :: rest2 => if '1' ≤ c2 && c2 ≤ '9' then some (charVal c2, rest2) else none
      | [] => none
    else if '1' ≤ c && c ≤ '9' then some (charVal c, rest)
    else none

/-- `%d`: `3[01] | [12]\d | 0[1-9] | [1-9]`. -/
def parseDay : List Char → Option (Nat × List Char)
  | [] => none
  | c :: rest =>
    if c == '3' then
      match rest with
      | c2 :: rest2 =>
        if c2 == '0' || c2 == '1' then some (30 + charVal c2, rest2) else some (3, rest)
      | [] => some (3, rest)
    else if c == '1' || c == '2' then
      match rest with
      | c2 :: rest2 =>
        if c2.isDigit then some (charVal c * 10 + charVal c2, rest2) else some (charVal c, rest)
      | [] => some (charVal c, rest)
    else if c == '0' then
      match rest with
      | c2 :: rest2 => if '1' ≤ c2 && c2 ≤ '9' then some (charVal c2, rest2) else none
      | [] => none
    else if '4' ≤ c && c ≤ '9' then some (charVal c, rest)
    else none

/-- `%H`: `2[0-3] | [0-1]\d | \d`. -/
def parseHour : List Char → Option (Nat × List Char)
  | [] => none
  | c :: rest =>
    if c == '2' then
      match rest with
      | c2 :: rest2 =>
        if '0' ≤ c2 && c2 ≤ '3' then some (20 + charVal c2, rest2) else some (2, rest)
      | [] => some (2, rest)
    else if c == '0' || c == '1' then
      match rest with
      | c2 :: rest2 =>
        if c2.isDigit then some (charVal c * 10 + charVal c2, rest2) else some (charVal c, rest)
      | [] => some (charVal c, rest)
    else if c.isDigit then some (charVal c, rest)
    else none

/-- `%M`: `[0-5]\d | \d`. -/
def parseMin : List Char → Option (Nat × List Char)
  | [] => none
  | c :: rest =>
    if '0' ≤ c && c ≤ '5' then
      match rest with
      | c2 :: rest2 =>
        if c2.isDigit then some (charVal c * 10 + charVal c2, rest2) else some (charVal c, rest)
      | [] => some (charVal c, rest)
    else if c.isDigit then some (charVal c, rest)
    else none

/-- `%S`: `6[0-1] | [0-5]\d | \d` (the regex admits leap seconds 60 and 61;
the `datetime` constructor later rejects them). -/
def parseSec : List Char → Option (Nat × List Char)
  | [] => none
  | c :: rest =>
    if c == '6' then
      match rest with
      | c2 :: rest2 =>
        if c2 == '0' || c2 == '1' then some (60 + charVal c2, rest2) else some (6, rest)
      | [] => some (6, rest)
    else if '0' ≤ c && c ≤ '5' then
      match rest with
      | c2 :: rest2 =>
        if c2.isDigit then some (charVal c * 10 + charVal c2, rest2) else some (charVal c, rest)
      | [] => some (charVal c, rest)
    else if c.isDigit then some (charVal c, rest)
    else none

/-- Count of leading digit characters and the remainder (for `%f`). -/
def takeDigits : List Char → Nat × List Char
  | [] => (0, [])
  | c :: cs =>
    if c.isDigit then
      let r := takeDigits cs
      (r.1 + 1, r.2)
    else (0, c :: cs)

/-- Fields extracted by `strptime` that the program goes on to use. -/
structure ParsedTime where
  year : Nat
  month : Nat
  day : Nat
  hour : Nat
  minute : Nat
  second : Nat
deriving DecidableEq

/-- Sequencing of a field parse (mirror of regex concatenation). -/
def pstep {β : Type} (r : Option (Nat × List Char)) (k : Nat → List Char → Option β) :
    Option β :=
  match r with
  | none => none
  | some (a, s) => k a s

/-- Sequencing of a literal parse. -/
def lstep {β : Type} (r : Option (List Char)) (k : List Char → Option β) : Option β :=
  match r with
  | none => none
  | some s => k s

/-- The format regex `%Y-%m-%dT%H:%M:%S.%fZ`, full-match, as run by
`datetime.strptime`. -/
def strptimeIsoMs (s : List Char) : Option ParsedTime :=
  pstep (parseY s) fun y s =>
  lstep (parseLit '-' s) fun s =>
  pstep (parseMonth s) fun mo s =>
  lstep (parseLit '-' s) fun s =>
  pstep (parseDay s) fun d s =>
  lstep (parseLit 'T' s) fun s =>
  pstep (parseHour s) fun h s =>
  lstep (parseLit ':' s) fun s =>
  pstep (parseMin s) fun mi s =>
  lstep (parseLit ':' s) fun s =>
  pstep (parseSec s) fun sec s =>
  lstep (parseLit '.' s) fun s =>
  let fr := takeDigits s
  if 1 ≤ fr.1 ∧ fr.1 ≤ 6 then
    lstep (parseLit 'Z' fr.2) fun s =>
    if s = [] then some ⟨y, mo, d, h, mi, sec⟩ else none
  else none

/-- Gregorian leap-year rule (as used by `datetime`). -/
def isLeap (y : Nat) : Bool := (y % 4 == 0 && y % 100 != 0) || y % 400 == 0

/-- Length of a month (as validated by the `datetime` constructor). -/
def daysInMonth (y m : Nat) : Nat :=
  if m == 2 then (if isLeap y then 29 else 28)
  else if m == 4 || m == 6 || m == 9 || m == 11 then 30
  else 31

/-- The range checks the `datetime` constructor performs on the regex output
(the regex already bounds month ≤ 12, hour ≤ 23, minute ≤ 59, day ≤ 31). -/
def validDatetime (t : ParsedTime) : Bool :=
  decide (1 ≤ t.year) && decide (t.year ≤ 9999) && decide (1 ≤ t.day) &&
  decide (t.day ≤ daysInMonth t.year t.month) && decide (t.second ≤ 59)

/-- One decimal digit as a character (callers pass values below 10). -/
def digitChar : Nat → Char
  | 0 => '0' | 1 => '1' | 2 => '2' | 3 => '3' | 4 => '4'
  | 5 => '5' | 6 => '6' | 7 => '7' | 8 => '8' | _ => '9'

/-- Two-digit zero-padded rendering (`strftime` `%m`, `%d`, `%H`, `%M`). -/
def pad2 (n : Nat) : List Char := [digitChar (n / 10), digitChar (n % 10)]

/-- Four-digit zero-padded rendering (`strftime` `%Y`). -/
def pad4 (n : Nat) : List Char :=
  [digitChar (n / 1000), digitChar (n / 100 % 10), digitChar (n / 10 % 10), digitChar (n % 10)]

/-- `format_time(time_str)`: parse with `strptime`, validate as `datetime`,
render with `strftime("%Y-%m-%d %H:%M")`.  A raised exception (pattern
mismatch or constructor `ValueError`) is `none`. -/
def format_time (time_str : String) : Option String :=
  match strptimeIsoMs time_str.data with
  | none => none
  | some t =>
    if validDatetime t then
      some ⟨pad4 t.year ++ '-' :: (pad2 t.month ++ '-' :: (pad2 t.day ++
            ' ' :: (pad2 t.hour ++ ':' :: pad2 t.minute)))⟩
    else none

/-! ## `display_dns_table` (lines 84–105)

A DNS record is a JSON object; fields may be absent.  `record.get(k, d)`
defaults, `record[k]` raises `KeyError` when absent.  `format_time` raises
`ValueError` on malformed timestamps.  Neither is caught locally. -/

/-- Uncaught Python exceptions the presenter can raise. -/
inductive PyError where
  | keyError (key : String)
  | valueError
deriving DecidableEq

/-- A DNS record as consumed by the presenter; every field is optional, as in
the underlying JSON object. -/
structure DNSRecord where
  type : Option String := none
  name : Option String := none
  content : Option String := none
  priority : Option Nat := none
  proxied : Option Bool := none
  ttl : Option Nat := none
  created_on : Option String := none
  modified_on : Option String := none
  comment : Option String := none
deriving DecidableEq

/-- Python `str` of a boolean. -/
def pyBoolStr : Bool → String
  | true => "True"
  | false => "False"

/-- One rendered table row (the nine cells passed to `table.add_row`, with
rich markup kept verbatim). -/
structure Row where
  typeCell : String
  nameCell : String
  contentCell : String
  priorityCell : String
  proxyCell : String
  ttlCell : String
  createdCell : String
  modifiedCell : String
  messageCell : String
deriving DecidableEq

/-- The proxy cell `f"[{proxy_color(p)}]{p}[/{proxy_color(p)}]"` for
`p = record.get('proxied', False)`. -/
def proxyCell (p : Bool) : String :=
  "[" ++ proxy_color p ++ "]" ++ pyBoolStr p ++ "[/" ++ proxy_color p ++ "]"

/-- One `table.add_row` call of `display_dns_table`.  Cells built from
`record.get(...)` cannot fail; `record['created_on']` and
`record['modified_on']` are plain subscripts (KeyError when absent) and their
values go through `format_time` (ValueError when malformed), evaluated in
argument order: created first, then modified.  The closing `[blue]` tag of the
content cell reproduces the source verbatim. -/
def renderRow (zone_name : String) (r : DNSRecord) : Except PyError Row :=
  match r.created_on with
  | none => .error (.keyError "created_on")
  | some c =>
    match format_time c with
    | none => .error .valueError
    | some fc =>
      match r.modified_on with
      | none => .error (.keyError "modified_on")
      | some m =>
        match format_time m with
        | none => .error .valueError
        | some fm =>
          .ok { typeCell := "[" ++ type_color_opt r.type ++ "]" ++ r.type.getD "" ++
                  "[/" ++ type_color_opt r.type ++ "]"
                nameCell := "[white]" ++ simplify_name (r.name.getD "") zone_name ++ "[/white]"
                contentCell := "[blue]" ++ r.content.getD "" ++ "[blue]"
                priorityCell := match r.priority with
                  | some n => toString n
                  | none => "-"
                proxyCell := proxyCell (r.proxied.getD false)
                ttlCell := match r.ttl with
                  | some n => toString n
                  | none => ""
                createdCell := "[bright_black]" ++ fc ++ "[/bright_black]"
                modifiedCell := "[bright_black]" ++ fm ++ "[/bright_black]"
                messageCell := r.comment.getD "" }

/-- The record loop of `display_dns_table`: rows in order, stopping at the
first raised exception. -/
def buildRows (zone_name : String) : List DNSRecord → Except PyError (List Row)
  | [] => .ok []
  | r :: rs =>
    match renderRow zone_name r with
    | .error e => .error e
    | .ok row =>
      match buildRows zone_name rs with
      | .error e => .error e
      | .ok rows => .ok (row :: rows)

/-- `display_dns_table(account_name, zone_name, records)`: the account name
only feeds the table title; the result is the rendered rows or the first
uncaught exception. -/
def display_dns_table (_account_name zone_name : String) (records : List DNSRecord) :
    Except PyError (List Row) :=
  buildRows zone_name records

/-! ## Filter engine (`main`, lines 114–115 and 126–130 / 137–141) -/

/-- Python `s.split(",")` (never returns an empty list; `"".split(",") == [""]`). -/
def splitComma : List Char → List (List Char)
  | [] => [[]]
  | c :: cs =>
    if c == ',' then [] :: splitComma cs
    else
      match splitComma cs with
      | [] => [[c]]
      | g :: gs => (c :: g) :: gs

/-- Line 114/115: `[x.lower() for x in os.getenv(V, "").split(",")] if os.getenv(V)
else None`.  An unset or empty variable (both falsy) yields no filter. -/
def parseEnvFilter : Option String → Option (List String)
  | none => none
  | some s =>
    if s == "" then none
    else some ((splitComma s.data).map fun g => ⟨g.map Char.toLower⟩)

/-- The two consecutive `continue` guards of `main` applied to one name:
skip when the env filter list is truthy and no entry occurs in the lowercased
name; skip when the CLI filter is truthy and, lowercased, does not occur in
the lowercased name.  Included iff neither guard fires. -/
def passes_filters (name : String) (envFilters : Option (List String))
    (cliFilter : Option String) : Bool :=
  (match envFilters with
   | none => true
   | some es => if es.isEmpty then true else es.any fun e => strIn e (pyLower name)) &&
  (match cliFilter with
   | none => true
   | some c => if c == "" then true else strIn (pyLower c) (pyLower name))

/-- The spec's filter policy, stated from its words: an item passes the
environment source when the filter is absent or some entry is a substring of
the lowercased name, and passes the CLI source when the filter is absent or is
a case-insensitive substring of the name; inclusion requires both. -/
def spec_included (name : String) (envFilters : Option (List String))
    (cliFilter : Option String) : Prop :=
  (∀ es, envFilters = some es → ∃ e ∈ es, strIn e (pyLower name) = true) ∧
  (∀ c, cliFilter = some c → strIn (pyLower c) (pyLower name) = true)

/-! ## Fetchers (lines 35–57)

Each fetcher issues one GET and inspects `response.status_code`; exactly 200
takes the success path (`response.json().get("result", [])`), every other
status logs the response body and yields `[]`.  A response is modelled by its
status, its decoded `result` member when the JSON body has one, and its raw
text.  The second component of each fetcher's result is the list of log lines
it emits. -/

/-- An account object (`id` and `name` as used by `main`). -/
structure Account where
  id : String
  name : String
deriving DecidableEq

/-- A zone object (`id` and `name` as used by `main`). -/
structure Zone where
  id : String
  name : String
deriving DecidableEq

/-- An HTTP response as the fetchers consume it. -/
structure ApiResponse (α : Type) where
  status_code : Nat
  jsonResult : Option (List α)
  text : String

/-- `get_accounts()` applied to the response it receives. -/
def get_accounts (resp : ApiResponse Account) : List Account × List String :=
  if resp.status_code == 200 then (resp.jsonResult.getD [], [])
  else ([], ["Failed to fetch accounts: " ++ resp.text])

/-- `get_zones(account_id)` applied to the response it receives. -/
def get_zones (account_id : String) (resp : ApiResponse Zone) : List Zone × List String :=
  if resp.status_code == 200 then (resp.jsonResult.getD [], [])
  else ([], ["Failed to fetch zones for account " ++ account_id ++ ": " ++ resp.text])

/-- `get_dns_records(zone_id)` applied to the response it receives. -/
def get_dns_records (zone_id : String) (resp : ApiResponse DNSRecord) :
    List DNSRecord × List String :=
  if resp.status_code == 200 then (resp.jsonResult.getD [], [])
  else ([], ["Failed to fetch DNS records for zone " ++ zone_id ++ ": " ++ resp.text])

/-! ## Orchestrator (`main`, lines 108–144) -/

/-- The remote API as `main` observes it: one accounts response, plus a zones
response per account id and a DNS-records response per zone id. -/
structure Api where
  accountsResp : ApiResponse Account
  zonesResp : String → ApiResponse Zone
  dnsResp : String → ApiResponse DNSRecord

/-- Parsed CLI flags (`--account`, `--zone`; argparse defaults to `None`). -/
structure Args where
  account : Option String := none
  zone : Option String := none

/-- The two filter environment variables. -/
structure EnvVars where
  accountsVar : Option String := none
  zonesVar : Option String := none

/-- Observable steps of one run, in execution order. -/
inductive Event where
  | fetchAccounts
  | fetchZones (accountId : String)
  | fetchDns (zoneId : String)
  | renderTable (accountName zoneName : String)
  | printNotice
deriving DecidableEq

/-- Run a body over a list sequentially, concatenating emitted events and
stopping at the first uncaught exception (Python loop semantics). -/
def runSeq {α : Type} (f : α → List Event × Option PyError) :
    List α → List Event × Option PyError
  | [] => ([], none)
  | x :: xs =>
    match f x with
    | (evs, some e) => (evs, some e)
    | (evs, none) =>
      let rest := runSeq f xs
      (evs ++ rest.1, rest.2)

/-- One iteration of the inner zone loop: filter guards, then the DNS fetch
and the table render (which may raise). -/
def processZone (envZones : Option (List String)) (cliZone : Option String)
    (accountName : String) (api : Api) (z : Zone) : List Event × Option PyError :=
  if passes_filters z.name envZones cliZone then
    let records := (get_dns_records z.id (api.dnsResp z.id)).1
    match display_dns_table accountName z.name records with
    | .ok _ => ([.fetchDns z.id, .renderTable accountName z.name], none)
    | .error e => ([.fetchDns z.id], some e)
  else ([], none)

/-- One iteration of the outer account loop: filter guards, then the zones
fetch and the zone loop. -/
def processAccount (envAccounts envZones : Option (List String)) (args : Args)
    (api : Api) (a : Account) : List Event × Option PyError :=
  if passes_filters a.name envAccounts args.account then
    let zones := (get_zones a.id (api.zonesResp a.id)).1
    let rest := runSeq (processZone envZones args.zone a.name api) zones
    (.fetchZones a.id :: rest.1, rest.2)
  else ([], none)

/-- `main()`: derive the env filters, fetch accounts, early-return with a
notice when the list is falsy, otherwise walk accounts → zones → records.
The result is the event trace and the uncaught exception, if any. -/
def main (env : EnvVars) (args : Args) (api : Api) : List Event × Option PyError :=
  let envAccounts := parseEnvFilter env.accountsVar
  let envZones := parseEnvFilter env.zonesVar
  let accounts := (get_accounts api.accountsResp).1
  if accounts.isEmpty then ([.fetchAccounts, .printNotice], none)
  else
    let r := runSeq (processAccount envAccounts envZones args api) accounts
    (.fetchAccounts :: r.1, r.2)

/-- The `if __name__` wrapper: an uncaught exception is logged and the
interpreter exits nonzero; a normal return exits 0. -/
def exit_code (env : EnvVars) (args : Args) (api : Api) : Nat :=
  match (main env args api).2 with
  | none => 0
  | some _ => 1

/-- Ordered concatenation of per-element event lists. -/
def concatMap {α β : Type} (f : α → List β) : List α → List β
  | [] => []
  | x :: xs => f x ++ concatMap f xs

/-- The trace the spec prescribes, stated from its words: one accounts fetch;
the notice on an empty account list; otherwise, per surviving account in API
order, one zones fetch, and per surviving zone in API order one DNS fetch
followed by one table render. -/
def expectedTrace (env : EnvVars) (args : Args) (api : Api) : List Event :=
  let envAccounts := parseEnvFilter env.accountsVar
  let envZones := parseEnvFilter env.zonesVar
  let accounts := (get_accounts api.accountsResp).1
  if accounts.isEmpty then [.fetchAccounts, .printNotice]
  else
    .fetchAccounts ::
      concatMap
        (fun a =>
          .fetchZones a.id ::
            concatMap (fun z => [.fetchDns z.id, .renderTable a.name z.name])
              (((get_zones a.id (api.zonesResp a.id)).1).filter
                fun z => passes_filters z.name envZones args.zone))
        (accounts.filter fun a => passes_filters a.name envAccounts args.account)

/-! ## Spec-side definitions for the timestamp claims -/

/-- The timestamp shape named by the spec, read literally: exactly
`YYYY-MM-DDTHH:MM:SS.ffffffZ` with fixed-width, zero-padded numeric fields
(4-2-2-2-2-2 digits and a six-digit fraction). -/
def canonicalIsoForm (s : String) : Bool :=
  match s.data with
  | [a, b, c, d, s1, e, f, s2, g, h, s3, i, j, s4, k, l, s5, m, n, s6, o, p, q, r, u, v, w] =>
    [a, b, c, d, e, f, g, h, i, j, k, l, m, n, o, p, q, r, u, v].all Char.isDigit &&
    s1 == '-' && s2 == '-' && s3 == 'T' && s4 == ':' && s5 == ':' && s6 == '.' && w == 'Z'
  | _ => false

/-- A canonical (zero-padded) timestamp assembled from numeric components and
a fraction, shaped so that each field parser sees its own padded digits. -/
def canonicalInput (y mo d h mi sec : Nat) (f : List Char) : String :=
  ⟨pad4 y ++ '-' :: (pad2 mo ++ '-' :: (pad2 d ++ 'T' :: (pad2 h ++ ':' ::
    (pad2 mi ++ ':' :: (pad2 sec ++ '.' :: (f ++ ['Z']))))))⟩

/-! # Theorems -/

/-- C1: the spec requires `simplify_name` to strip only the trailing
`.zone` suffix (leaving the label portion), but `str.replace` removes every
occurrence of `".zone"`.  Evaluating the code at
`name = "a.example.com.example.com"`, `zone = "example.com"`: the label
portion is `"a.example.com"`, yet the code yields `"a"`. -/
theorem simplify_name_strips_interior_occurrences :
    simplify_name "a.example.com.example.com" "example.com" = "a" ∧
    simplify_name "a.example.com.example.com" "example.com" ≠ "a.example.com" := by
  decide

/-- C4 counterexample: the claim says `ACCOUNTS=""` derives a filter holding
one empty string; the code's truthiness test makes the empty value derive no
filter at all (`None`). -/
theorem empty_env_var_counterexample :
    parseEnvFilter (some "") = none ∧ parseEnvFilter (some "") ≠ some [""] := by
  decide

/-- C4 amended: an empty-string environment variable is falsy, so the derived
filter is absent, and every name passes exactly as when the variable is
unset. -/
theorem empty_env_var_no_filter :
    parseEnvFilter (some "") = none ∧
    ∀ (name : String) (cli : Option String),
      passes_filters name (parseEnvFilter (some "")) cli =
        passes_filters name (parseEnvFilter none) cli :=
  ⟨rfl, fun _ _ => rfl⟩

/-- C6: the record-type palette is total — the seven defined types map to
their fixed rich colors (the spec's "gray" for NS is the ANSI color
`bright_black`), and every other string maps to the default `white`; no input
errors. -/
theorem type_color_total :
    (type_color "A" = "cyan" ∧ type_color "CNAME" = "green" ∧ type_color "MX" = "yellow" ∧
     type_color "TXT" = "magenta" ∧ type_color "AAAA" = "blue" ∧
     type_color "NS" = "bright_black" ∧ type_color "SRV" = "bright_magenta") ∧
    ∀ t : String, t ∉ ["A", "CNAME", "MX", "TXT", "AAAA", "NS", "SRV"] →
      type_color t = "white" := by
  refine ⟨by decide, ?_⟩
  intro t ht
  simp only [List.mem_cons, List.not_mem_nil, or_false, not_or] at ht
  obtain ⟨h1, h2, h3, h4, h5, h6, h7⟩ := ht
  simp [type_color, colors, List.lookup, beq_eq_false_iff_ne.mpr h1,
    beq_eq_false_iff_ne.mpr h2, beq_eq_false_iff_ne.mpr h3, beq_eq_false_iff_ne.mpr h4,
    beq_eq_false_iff_ne.mpr h5, beq_eq_false_iff_ne.mpr h6, beq_eq_false_iff_ne.mpr h7]

/-- C6 witness: the unrecognized type `"SPF"` takes the default color. -/
theorem type_color_total_witness : type_color "SPF" = "white" :=
  type_color_total.2 "SPF" (by decide)

/-- C7: the proxy display uses exactly two fixed colors — `True` renders
bright-green and `False` bright-red — and a record with `proxied` absent
renders as `False` in bright-red without any error (provided the row itself
renders, i.e. the timestamps are present and well-formed). -/
theorem proxy_color_spec :
    proxy_color true = "bright_green" ∧ proxy_color false = "bright_red" ∧
    ∀ (zone : String) (r : DNSRecord) (c m fc fm : String),
      r.proxied = none → r.created_on = some c → format_time c = some fc →
      r.modified_on = some m → format_time m = some fm →
      ∃ row, renderRow zone r = .ok row ∧ row.proxyCell = "[bright_red]False[/bright_red]" := by
  refine ⟨rfl, rfl, ?_⟩
  intro zone r c m fc fm hp hc hfc hm hfm
  refine ⟨{ typeCell := "[" ++ type_color_opt r.type ++ "]" ++ r.type.getD "" ++
              "[/" ++ type_color_opt r.type ++ "]"
            nameCell := "[white]" ++ simplify_name (r.name.getD "") zone ++ "[/white]"
            contentCell := "[blue]" ++ r.content.getD "" ++ "[blue]"
            priorityCell := match r.priority with
              | some n => toString n
              | none => "-"
            proxyCell := proxyCell (r.proxied.getD false)
            ttlCell := match r.ttl with
              | some n => toString n
              | none => ""
            createdCell := "[bright_black]" ++ fc ++ "[/bright_black]"
            modifiedCell := "[bright_black]" ++ fm ++ "[/bright_black]"
            messageCell := r.comment.getD "" }, ?_, ?_⟩
  · simp only [renderRow, hc, hfc, hm, hfm]
  · simp [hp, proxyCell, proxy_color, pyBoolStr]

/-- C7 witness: a record with no `proxied` field and valid timestamps renders
with the bright-red `False` proxy cell. -/
theorem proxy_color_spec_witness :
    ∃ row,
      renderRow "example.com"
          { created_on := some "2024-01-02T03:04:05.123456Z",
            modified_on := some "2024-01-02T03:04:05.123456Z" } = .ok row ∧
      row.proxyCell = "[bright_red]False[/bright_red]" :=
  proxy_color_spec.2.2 "example.com"
    { created_on := some "2024-01-02T03:04:05.123456Z",
      modified_on := some "2024-01-02T03:04:05.123456Z" }
    "2024-01-02T03:04:05.123456Z" "2024-01-02T03:04:05.123456Z"
    "2024-01-02 03:04" "2024-01-02 03:04" rfl rfl (by decide) rfl (by decide)

/-- C10: every presenter field except the two timestamps is read with a
default (`type`, `name`, `content`, `comment` default to empty, `priority` to
`"-"`, `ttl` to empty, `proxied` to `False`), so any such missing field still
renders; `created_on` and `modified_on` are plain subscripts, so a missing key
raises an uncaught `KeyError` (created first, in argument order). -/
theorem presenter_field_access :
    ∀ (zone : String) (r : DNSRecord),
      (r.created_on = none → renderRow zone r = .error (.keyError "created_on")) ∧
      (∀ c fc, r.created_on = some c → format_time c = some fc → r.modified_on = none →
        renderRow zone r = .error (.keyError "modified_on")) ∧
      (∀ c fc m fm, r.created_on = some c → format_time c = some fc →
        r.modified_on = some m → format_time m = some fm →
        renderRow zone r = .ok
          { typeCell := "[" ++ type_color_opt r.type ++ "]" ++ r.type.getD "" ++
              "[/" ++ type_color_opt r.type ++ "]"
            nameCell := "[white]" ++ simplify_name (r.name.getD "") zone ++ "[/white]"
            contentCell := "[blue]" ++ r.content.getD "" ++ "[blue]"
            priorityCell := match r.priority with
              | some n => toString n
              | none => "-"
            proxyCell := proxyCell (r.proxied.getD false)
            ttlCell := match r.ttl with
              | some n => toString n
              | none => ""
            createdCell := "[bright_black]" ++ fc ++ "[/bright_black]"
            modifiedCell := "[bright_black]" ++ fm ++ "[/bright_black]"
            messageCell := r.comment.getD "" }) := by
  intro zone r
  refine ⟨?_, ?_, ?_⟩ <;> intros <;> simp only [renderRow, *]

/-- C10 witness: a record with only the two timestamps renders (all defaults
applied); records missing `created_on` or `modified_on` raise the
corresponding `KeyError`. -/
theorem presenter_field_access_witness :
    renderRow "example.com" { } = .error (.keyError "created_on") ∧
    renderRow "example.com" { created_on := some "2024-01-02T03:04:05.123456Z" } =
      .error (.keyError "modified_on") ∧
    renderRow "example.com"
        { created_on := some "2024-01-02T03:04:05.123456Z",
          modified_on := some "2024-05-06T07:08:09.000001Z" } =
      .ok
        { typeCell := "[white][/white]"
          nameCell := "[white][/white]"
          contentCell := "[blue][blue]"
          priorityCell := "-"
          proxyCell := "[bright_red]False[/bright_red]"
          ttlCell := ""
          createdCell := "[bright_black]2024-01-02 03:04[/bright_black]"
          modifiedCell := "[bright_black]2024-05-06 07:08[/bright_black]"
          messageCell := "" } := by
  refine ⟨(presenter_field_access "example.com" { }).1 rfl, ?_, ?_⟩
  · exact (presenter_field_access "example.com"
      { created_on := some "2024-01-02T03:04:05.123456Z" }).2.1
      "2024-01-02T03:04:05.123456Z" "2024-01-02 03:04" rfl (by decide) rfl
  · have h := (presenter_field_access "example.com"
      { created_on := some "2024-01-02T03:04:05.123456Z",
        modified_on := some "2024-05-06T07:08:09.000001Z" }).2.2
      "2024-01-02T03:04:05.123456Z" "2024-01-02 03:04"
      "2024-05-06T07:08:09.000001Z" "2024-05-06 07:08" rfl (by decide) rfl (by decide)
    simpa using h

/-- C8: when the account fetch yields an empty list, `main` prints the
"no accounts" notice and returns: the trace is exactly the accounts fetch
followed by the notice — no zone fetch, no DNS fetch, no table — with no
exception, so the process exits 0. -/
theorem no_accounts_clean_exit :
    ∀ (env : EnvVars) (args : Args) (api : Api), (get_accounts api.accountsResp).1 = [] →
      main env args api = ([.fetchAccounts, .printNotice], none) ∧
      exit_code env args api = 0 := by
  intro env args api h
  have hm : main env args api = ([.fetchAccounts, .printNotice], none) := by
    simp [main, h]
  exact ⟨hm, by simp [exit_code, hm]⟩

/-- C8 witness: a failed accounts call (HTTP 500) yields the empty list, so
the run prints the notice and exits 0. -/
theorem no_accounts_clean_exit_witness :
    main { } { } ⟨⟨500, none, "server error"⟩, fun _ => ⟨200, some [], ""⟩,
        fun _ => ⟨200, some [], ""⟩⟩ =
      ([.fetchAccounts, .printNotice], none) ∧
    exit_code { } { } ⟨⟨500, none, "server error"⟩, fun _ => ⟨200, some [], ""⟩,
        fun _ => ⟨200, some [], ""⟩⟩ = 0 :=
  no_accounts_clean_exit { } { }
    ⟨⟨500, none, "server error"⟩, fun _ => ⟨200, some [], ""⟩, fun _ => ⟨200, some [], ""⟩⟩
    (by decide)

/-- C3 counterexample: the claim treats every 2xx status as success, but the
fetchers succeed only on exactly 200.  At status 204 (a 2xx) with a decoded
`result` array present, `get_accounts` discards the result, logs the body,
and returns the empty list. -/
theorem fetch_2xx_counterexample :
    (200 ≤ 204 ∧ 204 < 300) ∧
    get_accounts ⟨204, some [⟨"a1", "Acme"⟩], "body"⟩ =
      ([], ["Failed to fetch accounts: body"]) ∧
    (get_accounts ⟨204, some [⟨"a1", "Acme"⟩], "body"⟩).1 ≠ [⟨"a1", "Acme"⟩] := by
  decide

/-- C3 amended: each fetcher returns the decoded `result` array exactly when
the status is 200, and on every other status — 2xx or not — logs the response
body as an error and returns the empty list without raising. -/
theorem fetch_status_exactly_200 :
    ∀ (ra : ApiResponse Account) (rz : ApiResponse Zone) (rd : ApiResponse DNSRecord)
      (aid zid : String),
      (ra.status_code = 200 → get_accounts ra = (ra.jsonResult.getD [], [])) ∧
      (ra.status_code ≠ 200 →
        get_accounts ra = ([], ["Failed to fetch accounts: " ++ ra.text])) ∧
      (rz.status_code = 200 → get_zones aid rz = (rz.jsonResult.getD [], [])) ∧
      (rz.status_code ≠ 200 →
        get_zones aid rz = ([], ["Failed to fetch zones for account " ++ aid ++ ": " ++ rz.text])) ∧
      (rd.status_code = 200 → get_dns_records zid rd = (rd.jsonResult.getD [], [])) ∧
      (rd.status_code ≠ 200 →
        get_dns_records zid rd =
          ([], ["Failed to fetch DNS records for zone " ++ zid ++ ": " ++ rd.text])) := by
  intro ra rz rd aid zid
  refine ⟨?_, ?_, ?_, ?_, ?_, ?_⟩ <;> intro h <;>
    simp [get_accounts, get_zones, get_dns_records, h]

/-- C3 witness: a 200 response returns its result array; a 404 response logs
and returns the empty list. -/
theorem fetch_status_exactly_200_witness :
    get_accounts ⟨200, some [⟨"a1", "Acme"⟩], ""⟩ =
      ((some [(⟨"a1", "Acme"⟩ : Account)]).getD [], []) ∧
    get_zones "a1" ⟨404, none, "not found"⟩ =
      ([], ["Failed to fetch zones for account " ++ "a1" ++ ": " ++ "not found"]) :=
  ⟨(fetch_status_exactly_200 ⟨200, some [⟨"a1", "Acme"⟩], ""⟩ ⟨404, none, "not found"⟩
      ⟨200, some [], ""⟩ "a1" "z1").1 rfl,
   (fetch_status_exactly_200 ⟨200, some [⟨"a1", "Acme"⟩], ""⟩ ⟨404, none, "not found"⟩
      ⟨200, some [], ""⟩ "a1" "z1").2.2.2.1 (by decide)⟩

/-- The empty string occurs in every string (Python `"" in s`). -/
theorem containsSub_nil (l : List Char) : containsSub [] l = true := by
  cases l <;> simp [containsSub, leadsWith]

/-- Python `split` never returns an empty list. -/
theorem splitComma_ne_nil (cs : List Char) : splitComma cs ≠ [] := by
  induction cs with
  | nil => simp [splitComma]
  | cons c cs ih =>
    unfold splitComma
    cases hc : c == ','
    · cases hsp : splitComma cs with
      | nil => exact absurd hsp ih
      | cons g gs => simp [hc, hsp]
    · simp [hc]

/-- A derived environment filter, when present, is a non-empty list. -/
theorem parseEnvFilter_ne_nil {v : Option String} {es : List String}
    (h : parseEnvFilter v = some es) : es ≠ [] := by
  cases v with
  | none => simp [parseEnvFilter] at h
  | some s =>
    simp only [parseEnvFilter] at h
    by_cases hs : (s == "") = true
    · simp [hs] at h
    · simp only [hs, Bool.false_eq_true, if_false, Option.some.injEq] at h
      intro hnil
      subst hnil
      exact splitComma_ne_nil s.data (List.map_eq_nil_iff.mp h)

/-- C2: an account or zone name is included iff it passes both active filter
sources conjunctively — some entry of the env-derived list (when present) is
a substring of the lowercased name, and the CLI filter (when present) is a
case-insensitive substring — with an absent source passing automatically and
no filters including everything. -/
theorem filters_conjunctive_iff :
    ∀ (envVar : Option String) (name : String) (cli : Option String),
      (passes_filters name (parseEnvFilter envVar) cli = true ↔
        spec_included name (parseEnvFilter envVar) cli) ∧
      passes_filters name none none = true := by
  intro envVar name cli
  refine ⟨?_, rfl⟩
  unfold passes_filters spec_included
  rw [Bool.and_eq_true]
  have henv : (match parseEnvFilter envVar with
      | none => true
      | some es => if es.isEmpty then true else es.any fun e => strIn e (pyLower name)) =
        true ↔
      ∀ es, parseEnvFilter envVar = some es → ∃ e ∈ es, strIn e (pyLower name) = true := by
    cases hev : parseEnvFilter envVar with
    | none => simp
    | some es =>
      have hne : es ≠ [] := parseEnvFilter_ne_nil hev
      have hemp : es.isEmpty = false := by
        cases es with
        | nil => exact absurd rfl hne
        | cons g gs => rfl
      simp [hemp, List.any_eq_true]
  have hcli : (match cli with
      | none => true
      | some c => if c == "" then true else strIn (pyLower c) (pyLower name)) = true ↔
      ∀ c, cli = some c → strIn (pyLower c) (pyLower name) = true := by
    cases cli with
    | none => simp
    | some c =>
      cases hc : c == ""
      · simp [hc]
      · have hceq : c = "" := by simpa using hc
        subst hceq
        simp only [strIn]
        simp
        exact containsSub_nil _
  rw [henv, hcli]

/-- An error-free sequential run concatenates the per-element traces, and
every element ran without error. -/
theorem runSeq_no_error {α : Type} (f : α → List Event × Option PyError) :
    ∀ xs, (runSeq f xs).2 = none →
      (runSeq f xs).1 = concatMap (fun x => (f x).1) xs ∧ ∀ x ∈ xs, (f x).2 = none := by
  intro xs
  induction xs with
  | nil => intro _; exact ⟨rfl, by simp⟩
  | cons x xs ih =>
    intro h
    unfold runSeq at h ⊢
    rcases hfx : f x with ⟨evs, err⟩
    rw [hfx] at h
    cases err with
    | some e => simp at h
    | none =>
      simp only at h ⊢
      obtain ⟨h1, h2⟩ := ih h
      refine ⟨by simp only [concatMap, hfx, h1], ?_⟩
      intro y hy
      rcases List.mem_cons.mp hy with rfl | hy
      · rw [hfx]
      · exact h2 y hy

/-- Pointwise equal trace functions give equal concatenated traces. -/
theorem concatMap_congr {α β : Type} {f g : α → List β} :
    ∀ xs, (∀ x ∈ xs, f x = g x) → concatMap f xs = concatMap g xs := by
  intro xs
  induction xs with
  | nil => intro _; rfl
  | cons x xs ih =>
    intro h
    simp only [concatMap]
    rw [h x (List.mem_cons_self x xs), ih fun y hy => h y (List.mem_cons_of_mem x hy)]

/-- Guarding each element's trace by a predicate is filtering the list. -/
theorem concatMap_guard {α β : Type} (p : α → Bool) (g : α → List β) :
    ∀ xs, concatMap (fun x => if p x then g x else []) xs = concatMap g (xs.filter p) := by
  intro xs
  induction xs with
  | nil => rfl
  | cons x xs ih =>
    simp only [concatMap, List.filter_cons]
    cases hp : p x
    · simp only [Bool.false_eq_true, if_false, List.nil_append, ih]
    · simp only [if_true, concatMap, ih]

/-- An error-free zone iteration emits the DNS fetch and the render when the
zone survives the filters, and nothing otherwise. -/
theorem processZone_trace (envZones : Option (List String)) (cliZone : Option String)
    (accountName : String) (api : Api) (z : Zone)
    (h : (processZone envZones cliZone accountName api z).2 = none) :
    (processZone envZones cliZone accountName api z).1 =
      if passes_filters z.name envZones cliZone then
        [.fetchDns z.id, .renderTable accountName z.name]
      else [] := by
  unfold processZone at h ⊢
  by_cases hp : passes_filters z.name envZones cliZone = true
  · rw [if_pos hp] at h ⊢
    rw [if_pos hp]
    simp only at h ⊢
    cases hd : display_dns_table accountName z.name
        ((get_dns_records z.id (api.dnsResp z.id)).1) with
    | ok rows => rfl
    | error e => rw [hd] at h; simp at h
  · rw [if_neg hp] at h ⊢
    rw [if_neg hp]

/-- An error-free account iteration emits the zones fetch followed by the
surviving zones' traces when the account survives the filters, and nothing
otherwise. -/
theorem processAccount_trace (envAccounts envZones : Option (List String)) (args : Args)
    (api : Api) (a : Account)
    (h : (processAccount envAccounts envZones args api a).2 = none) :
    (processAccount envAccounts envZones args api a).1 =
      if passes_filters a.name envAccounts args.account then
        .fetchZones a.id ::
          concatMap (fun z => [.fetchDns z.id, .renderTable a.name z.name])
            (((get_zones a.id (api.zonesResp a.id)).1).filter
              fun z => passes_filters z.name envZones args.zone)
      else [] := by
  unfold processAccount at h ⊢
  by_cases hp : passes_filters a.name envAccounts args.account = true
  · rw [if_pos hp] at h ⊢
    rw [if_pos hp]
    simp only at h ⊢
    obtain ⟨h1, h2⟩ := runSeq_no_error _ _ h
    rw [h1, concatMap_congr _ fun z hz => processZone_trace _ _ _ _ z (h2 z hz),
      concatMap_guard]
  · rw [if_neg hp] at h ⊢
    rw [if_neg hp]

/-- C9: an error-free run fetches accounts once, then — per account surviving
both account filters, in API order — fetches its zones once, and — per zone
surviving both zone filters, in API order — fetches its DNS records once and
renders one table; rejected accounts trigger no zone fetch and rejected zones
no DNS fetch, and nothing is sorted. -/
theorem orchestration_trace :
    ∀ (env : EnvVars) (args : Args) (api : Api), (main env args api).2 = none →
      (main env args api).1 = expectedTrace env args api := by
  intro env args api h
  unfold main at h ⊢
  unfold expectedTrace
  by_cases hacc : ((get_accounts api.accountsResp).1).isEmpty = true
  · rw [if_pos hacc]
    rw [if_pos hacc] at h ⊢
  · rw [if_neg hacc]
    rw [if_neg hacc] at h ⊢
    simp only at h ⊢
    obtain ⟨h1, h2⟩ := runSeq_no_error _ _ h
    rw [h1, concatMap_congr _ fun a ha => processAccount_trace _ _ _ _ a (h2 a ha),
      concatMap_guard]

/-- C9 witness: a concrete error-free run (one account, two zones of which
the CLI zone filter keeps one) produces exactly the expected trace. -/
theorem orchestration_trace_witness :
    (main { } { zone := some "example" }
        ⟨⟨200, some [⟨"a1", "Acme"⟩], ""⟩,
          fun _ => ⟨200, some [⟨"z1", "example.com"⟩, ⟨"z2", "other.org"⟩], ""⟩,
          fun _ => ⟨200, some [], ""⟩⟩).2 = none ∧
    (main { } { zone := some "example" }
        ⟨⟨200, some [⟨"a1", "Acme"⟩], ""⟩,
          fun _ => ⟨200, some [⟨"z1", "example.com"⟩, ⟨"z2", "other.org"⟩], ""⟩,
          fun _ => ⟨200, some [], ""⟩⟩).1 =
      expectedTrace { } { zone := some "example" }
        ⟨⟨200, some [⟨"a1", "Acme"⟩], ""⟩,
          fun _ => ⟨200, some [⟨"z1", "example.com"⟩, ⟨"z2", "other.org"⟩], ""⟩,
          fun _ => ⟨200, some [], ""⟩⟩ :=
  ⟨by decide,
   orchestration_trace { } { zone := some "example" }
     ⟨⟨200, some [⟨"a1", "Acme"⟩], ""⟩,
       fun _ => ⟨200, some [⟨"z1", "example.com"⟩, ⟨"z2", "other.org"⟩], ""⟩,
       fun _ => ⟨200, some [], ""⟩⟩ (by decide)⟩

/-- `digitChar` of a value below ten is a digit character. -/
theorem digitChar_isDigit (k : Nat) (h : k < 10) : (digitChar k).isDigit = true := by
  interval_cases k <;> rfl

/-- `charVal` inverts `digitChar` below ten. -/
theorem charVal_digitChar (k : Nat) (h : k < 10) : charVal (digitChar k) = k := by
  interval_cases k <;> rfl

/-- A literal parse consumes its own character. -/
theorem parseLit_cons_self (c : Char) (s : List Char) : parseLit c (c :: s) = some s := by
  simp [parseLit]

/-- `%Y` reads back a four-digit zero-padded year. -/
theorem parseY_pad4 (y : Nat) (hy : y ≤ 9999) (rest : List Char) :
    parseY (pad4 y ++ rest) = some (y, rest) := by
  have h1 : y / 1000 < 10 := by omega
  have h2 : y / 100 % 10 < 10 := by omega
  have h3 : y / 10 % 10 < 10 := by omega
  have h4 : y % 10 < 10 := by omega
  simp [pad4, parseY, digitChar_isDigit _ h1, digitChar_isDigit _ h2, digitChar_isDigit _ h3,
    digitChar_isDigit _ h4, charVal_digitChar _ h1, charVal_digitChar _ h2,
    charVal_digitChar _ h3, charVal_digitChar _ h4]
  omega

/-- `%m` reads back a two-digit zero-padded month. -/
theorem parseMonth_pad2 (mo : Nat) (h1 : 1 ≤ mo) (h2 : mo ≤ 12) (rest : List Char) :
    parseMonth (pad2 mo ++ rest) = some (mo, rest) := by
  interval_cases mo <;> rfl

/-- `%d` reads back a two-digit zero-padded day. -/
theorem parseDay_pad2 (d : Nat) (h1 : 1 ≤ d) (h2 : d ≤ 31) (rest : List Char) :
    parseDay (pad2 d ++ rest) = some (d, rest) := by
  interval_cases d <;> rfl

/-- `%H` reads back a two-digit zero-padded hour. -/
theorem parseHour_pad2 (h : Nat) (h2 : h ≤ 23) (rest : List Char) :
    parseHour (pad2 h ++ rest) = some (h, rest) := by
  interval_cases h <;> rfl

/-- `%M` reads back a two-digit zero-padded minute. -/
theorem parseMin_pad2 (mi : Nat) (h2 : mi ≤ 59) (rest : List Char) :
    parseMin (pad2 mi ++ rest) = some (mi, rest) := by
  interval_cases mi <;> rfl

/-- `%S` reads back a two-digit zero-padded second. -/
theorem parseSec_pad2 (sec : Nat) (h2 : sec ≤ 59) (rest : List Char) :
    parseSec (pad2 sec ++ rest) = some (sec, rest) := by
  interval_cases sec <;> rfl

/-- `takeDigits` consumes exactly a digit block followed by `Z`. -/
theorem takeDigits_digits (f : List Char) (hf : f.all Char.isDigit = true) :
    takeDigits (f ++ ['Z']) = (f.length, ['Z']) := by
  induction f with
  | nil => rfl
  | cons c cs ih =>
    simp only [List.all_cons, Bool.and_eq_true] at hf
    simp [takeDigits, hf.1, ih hf.2]

/-- Every month has at most 31 days. -/
theorem daysInMonth_le_31 (y m : Nat) : daysInMonth y m ≤ 31 := by
  unfold daysInMonth
  split_ifs <;> omega

/-- C5 amended: the time formatter accepts exactly the Python `strptime`
pattern for `%Y-%m-%dT%H:%M:%S.%fZ` — which admits 1–2-digit month, day,
hour, minute and second fields and a 1–6-digit fraction, so some
non-canonical strings parse — followed by the `datetime` range checks.  Every
canonical zero-padded timestamp whose components form a valid date (year in
range, day within the month, second ≤ 59) is reformatted to
`YYYY-MM-DD HH:MM`; an input the formatter rejects raises a `ValueError`
that the presenter does not catch. -/
theorem format_time_amended :
    (∀ (y mo d h mi sec : Nat) (f : List Char),
      1 ≤ y → y ≤ 9999 → 1 ≤ mo → mo ≤ 12 → 1 ≤ d → d ≤ daysInMonth y mo →
      h ≤ 23 → mi ≤ 59 → sec ≤ 59 → 1 ≤ f.length → f.length ≤ 6 →
      f.all Char.isDigit = true →
      format_time (canonicalInput y mo d h mi sec f) =
        some ⟨pad4 y ++ '-' :: (pad2 mo ++ '-' :: (pad2 d ++ ' ' ::
          (pad2 h ++ ':' :: pad2 mi)))⟩) ∧
    (∀ (s zone : String) (r : DNSRecord),
      r.created_on = some s → format_time s = none →
      renderRow zone r = .error .valueError) := by
  constructor
  · intro y mo d h mi sec f hy1 hy2 hmo1 hmo2 hd1 hd2 hh hmi hsec hf1 hf6 hfd
    have hd31 : d ≤ 31 := hd2.trans (daysInMonth_le_31 y mo)
    have hv : validDatetime ⟨y, mo, d, h, mi, sec⟩ = true := by
      simp only [validDatetime, Bool.and_eq_true, decide_eq_true_eq]
      exact ⟨⟨⟨⟨hy1, hy2⟩, hd1⟩, hd2⟩, hsec⟩
    have hp : strptimeIsoMs (canonicalInput y mo d h mi sec f).data =
        some ⟨y, mo, d, h, mi, sec⟩ := by
      simp only [canonicalInput, strptimeIsoMs]
      rw [parseY_pad4 y hy2]
      simp only [pstep, lstep, parseLit_cons_self, parseMonth_pad2 mo hmo1 hmo2,
        parseDay_pad2 d hd1 hd31, parseHour_pad2 h hh, parseMin_pad2 mi hmi,
        parseSec_pad2 sec hsec, takeDigits_digits f hfd]
      rw [if_pos (⟨hf1, hf6⟩ : 1 ≤ f.length ∧ f.length ≤ 6)]
      simp
    simp [format_time, hp, hv]
  · intro s zone r hc hnone
    simp only [renderRow, hc, hnone]

/-- C5 counterexample: `"2024-1-02T03:04:05.5Z"` is not of the claimed
fixed-width form `YYYY-MM-DDTHH:MM:SS.ffffffZ` (one-digit month, one-digit
fraction), yet Python's lenient `strptime` pattern accepts it and the
formatter returns a result instead of raising. -/
theorem format_time_lenient_counterexample :
    canonicalIsoForm "2024-1-02T03:04:05.5Z" = false ∧
    format_time "2024-1-02T03:04:05.5Z" = some "2024-01-02 03:04" ∧
    format_time "2024-1-02T03:04:05.5Z" ≠ none := by
  decide

/-- C5 witness: a canonical valid timestamp is reformatted, and a record with
a malformed `created_on` makes the presenter raise the uncaught
`ValueError`. -/
theorem format_time_amended_witness :
    format_time (canonicalInput 2024 3 29 12 5 9 ['1', '2', '3', '4', '5', '6']) =
      some ⟨pad4 2024 ++ '-' :: (pad2 3 ++ '-' :: (pad2 29 ++ ' ' ::
        (pad2 12 ++ ':' :: pad2 5)))⟩ ∧
    renderRow "example.com" { created_on := some "oops" } = .error .valueError :=
  ⟨format_time_amended.1 2024 3 29 12 5 9 ['1', '2', '3', '4', '5', '6']
      (by decide) (by decide) (by decide) (by decide) (by decide) (by decide)
      (by decide) (by decide) (by decide) (by decide) (by decide) (by decide),
   format_time_amended.2 "oops" "example.com" { created_on := some "oops" } rfl (by decide)⟩

end CfInfo
